import Mathlib

/-!
Verification development for the mcp-raddar media-manager bridge.

The embedding below translates, function by function, the HTTP client layer
(`src/clients/base.py`), the two domain clients (`src/clients/radarr.py`,
`src/clients/sonarr.py`) and the tool adapters (`src/tools/radarr_tools.py`,
`src/tools/sonarr_tools.py`) into Lean.  Python dicts are modelled as
association lists in insertion order with unique keys; JSON values carry the
usual six constructors; fallible duck-typed Python code is modelled with
`Except`.  The `requests`/`urllib3` retry machinery configured by
`BaseArrClient._create_session` is embedded as an explicit retry loop whose
accounting follows `urllib3.util.retry.Retry` (`total=max_retries`,
`status_forcelist=[429,500,502,503,504]`, every method allowed,
`raise_on_status=False`; the backoff before the k-th retry is
`0` for `k = 1` and `min(120, backoff_factor * 2^(k-1))` for `k ≥ 2`).
-/

set_option maxHeartbeats 1000000

/-- JSON values exchanged with the Sonarr/Radarr backends.  Python `None`
is `Json.null`; Python dicts become `Json.obj` association lists (unique
keys, insertion order). -/
inductive Json where
  | null : Json
  | bool : Bool → Json
  | num : Int → Json
  | str : String → Json
  | arr : List Json → Json
  | obj : List (String × Json) → Json

/-- `jget key fs` models Python `d.get(key)` on a dict `d` with entries
`fs`: the value at the first (hence only) occurrence of `key`. -/
def jget (key : String) : List (String × Json) → Option Json
  | [] => none
  | (k, v) :: fs => if k = key then some v else jget key fs

/-- `objSet fs key v` models the Python dict assignment `d[key] = v`:
replace in place when the key is present, append otherwise. -/
def objSet : List (String × Json) → String → Json → List (String × Json)
  | [], key, v => [(key, v)]
  | (k, w) :: fs, key, v =>
    if k = key then (key, v) :: fs else (k, w) :: objSet fs key v

/-- Python truthiness of a JSON value (`if results:` etc.). -/
def Json.truthy : Json → Bool
  | .null => false
  | .bool b => b
  | .num n => n != 0
  | .str s => s != ""
  | .arr l => !l.isEmpty
  | .obj l => !l.isEmpty

/-! ## Transport layer: `BaseArrClient` (src/clients/base.py) -/

/-- A raw HTTP response body: empty text, text that parses as JSON, or
text that is not valid JSON. -/
inductive Body where
  | empty : Body
  | jsonBody (text : String) (value : Json) : Body
  | rawBody (text : String) : Body

/-- `response.text` of the modelled body. -/
def Body.text : Body → String
  | .empty => ""
  | .jsonBody t _ => t
  | .rawBody t => t

/-- What one low-level HTTP attempt can yield: a status-coded response, a
connection failure, or a timeout. -/
inductive Attempt where
  | response (status : Nat) (body : Body)
  | connError
  | timeoutErr

/-- Final outcome of the urllib3 retry session: the last response (with
`raise_on_status=False` an exhausted status-retry returns the response),
or an exhausted connection/timeout failure. -/
inductive SessionResult where
  | response (status : Nat) (body : Body)
  | connFailure
  | timeoutFailure

/-- The `status_forcelist` configured in `BaseArrClient._create_session`. -/
def statusForcelist : List Nat := [429, 500, 502, 503, 504]

/-- `Retry.get_backoff_time` of urllib3 just before the retry that would be
the `historyLen`-th request of the session: `0` while at most one request
failed so far, otherwise `backoff_factor * 2^(historyLen - 1)` capped at the
default `BACKOFF_MAX` of 120 seconds (the cap written as an `if` so the
definition evaluates by kernel reduction). -/
def backoffTime (factor : ℚ) (historyLen : Nat) : ℚ :=
  if historyLen ≤ 1 then 0
  else if factor * 2 ^ (historyLen - 1) ≤ 120 then factor * 2 ^ (historyLen - 1)
  else 120

/-- Trace of one session-level request: how many attempts were issued, the
sleep performed before each retry, and the final outcome. -/
structure SessionOutcome where
  attempts : Nat
  delays : List ℚ
  result : SessionResult

/-- Whether the configured retry policy retries this attempt outcome:
connection failures and timeouts always, responses only when the status
is in the forcelist (`Retry.is_retry`; every method is allowed). -/
def Attempt.isRetried : Attempt → Bool
  | .response s _ => decide (s ∈ statusForcelist)
  | .connError => true
  | .timeoutErr => true

/-- The session result produced when an attempt outcome ends the loop:
with `raise_on_status=False` the last response is returned, an exhausted
connection/timeout failure propagates as such. -/
def Attempt.toSessionResult : Attempt → SessionResult
  | .response s b => .response s b
  | .connError => .connFailure
  | .timeoutErr => .timeoutFailure

/-- The urllib3 retry loop as configured by `_create_session`.  `oracle k`
is the environment's answer to the `k`-th attempt (0-based); the second
argument is the remaining `total` retry budget.  A non-retried outcome
(status outside the forcelist) ends the loop at once; a retried outcome
consumes one retry (sleeping `backoffTime` for the growing failure
history) until the budget is exhausted, at which point the final outcome
is surfaced. -/
def retryLoop (oracle : Nat → Attempt) (factor : ℚ) : Nat → Nat → SessionOutcome
  | k, 0 => ⟨k + 1, [], (oracle k).toSessionResult⟩
  | k, r + 1 =>
    if (oracle k).isRetried then
      let rest := retryLoop oracle factor (k + 1) r
      ⟨rest.attempts, backoffTime factor (k + 1) :: rest.delays, rest.result⟩
    else ⟨k + 1, [], (oracle k).toSessionResult⟩

/-- One session-level request with retry budget `total = max_retries`. -/
def sessionRun (oracle : Nat → Attempt) (factor : ℚ) (total : Nat) : SessionOutcome :=
  retryLoop oracle factor 0 total

/-- The error taxonomy of `src/clients/base.py`: `ArrNetworkError` and
`ArrAPIError(message, status_code)`.  The 400 branch can store a non-string
message taken from the response body, hence `Json`. -/
inductive ArrError where
  | network (msg : String)
  | api (msg : Json) (statusCode : Nat)

/-- Message extraction of the 400 branch of `_make_request`: parse the
body; a non-empty JSON array contributes its first element's
`errorMessage` field, a JSON object its `message` field; any other shape,
parse failure, or missing field leaves the generic `"Bad request"`. -/
def extract400Message (body : Body) : Json :=
  match body with
  | .jsonBody _ v =>
    match v with
    | .arr (x :: _) =>
      match x with
      | .obj fs => (jget "errorMessage" fs).getD (.str "Bad request")
      | _ => .str "Bad request"
    | .obj fs => (jget "message" fs).getD (.str "Bad request")
    | _ => .str "Bad request"
  | _ => .str "Bad request"

/-- Status-code handling of `_make_request` once the session produced a
response: 401 and 404 map to fixed `ArrAPIError`s, 400 extracts its
message from the body, `≥ 500` and any other non-ok status produce
truncated-body messages, and an ok status parses the body (empty text
becomes `None`, invalid JSON surfaces as a network-layer failure). -/
def classifyResponse (endpoint : String) (s : Nat) (b : Body) : Except ArrError Json :=
  if s = 401 then
    .error (.api (.str "Authentication failed. Please check your API key.") 401)
  else if s = 404 then
    .error (.api (.str ("Resource not found: " ++ endpoint)) 404)
  else if s = 400 then
    .error (.api (extract400Message b) 400)
  else if 500 ≤ s then
    .error (.api (.str ("Server error: " ++ toString s ++ " - " ++ b.text.take 100)) s)
  else if 400 ≤ s then
    .error (.api (.str ("API request failed: " ++ toString s ++ " - " ++ b.text.take 100)) s)
  else
    match b with
    | .empty => .ok .null
    | .jsonBody _ v => .ok v
    | .rawBody _ => .error (.network "Request failed: invalid JSON in response body")

/-- `BaseArrClient._make_request`: run the retry session, then either
classify the final response or surface the exhausted network failure as
`ArrNetworkError`.  Returns the session trace together with the result. -/
def makeRequest (baseUrl : String) (oracle : Nat → Attempt) (factor : ℚ)
    (maxRetries : Nat) (endpoint : String) : SessionOutcome × Except ArrError Json :=
  let out := sessionRun oracle factor maxRetries
  let url := baseUrl ++ "/" ++ endpoint.dropWhile (· = '/')
  (out,
    match out.result with
    | .connFailure => .error (.network ("Failed to connect to " ++ baseUrl))
    | .timeoutFailure => .error (.network ("Request timeout: " ++ url))
    | .response s b => classifyResponse endpoint s b)

/-! ## Domain clients: `RadarrClient` / `SonarrClient` -/

/-- An HTTP request as issued by a client: method, full URL
(`base_url + "/" + endpoint.lstrip("/")`), query parameters (rendered as
strings) and optional JSON body. -/
structure Req where
  method : String
  url : String
  params : List (String × String)
  body : Option Json

/-- Python exceptions relevant to the adapter boundary: the two
`ArrClientError` subclasses, `ValueError`, and everything else
(attribute/type errors from duck typing). -/
inductive PyErr where
  | arrNetwork (msg : String)
  | arrAPI (msg : Json) (statusCode : Nat)
  | valueError (msg : String)
  | typeError (msg : String)

/-- `isinstance(e, ArrClientError)` in the adapter's `except` clauses. -/
def PyErr.isArrClientError : PyErr → Bool
  | .arrNetwork _ => true
  | .arrAPI _ _ => true
  | _ => false

/-- `str(e)` of a modelled exception. -/
def PyErr.msgStr : PyErr → String
  | .arrNetwork m => m
  | .arrAPI (.str m) _ => m
  | .arrAPI _ _ => "Bad request"
  | .valueError m => m
  | .typeError m => m

/-- The HTTP environment a client talks to: maps each issued request to a
parsed-JSON success (`Json.null` models an empty body) or a raised typed
error, abstracting `BaseArrClient._make_request`. -/
def Backend := Req → Except PyErr Json

/-- A Radarr API client: its normalized base URL and its transport
environment. -/
structure RadarrClient where
  baseUrl : String
  backend : Backend

/-- A Sonarr API client: its normalized base URL and its transport
environment. -/
structure SonarrClient where
  baseUrl : String
  backend : Backend

/-- URL construction of `_make_request`:
`f"{self.base_url}/{endpoint.lstrip('/')}"`. -/
def joinUrl (baseUrl endpoint : String) : String :=
  baseUrl ++ ("/" ++ endpoint.dropWhile (· = '/'))

/-- `BaseArrClient.get`: a single GET request through the backend,
returned together with its one-request trace. -/
def clientGet (baseUrl : String) (backend : Backend) (endpoint : String)
    (params : List (String × String)) : List Req × Except PyErr Json :=
  let req : Req := ⟨"GET", joinUrl baseUrl endpoint, params, none⟩
  ([req], backend req)

/-- `BaseArrClient.post`: a single POST request through the backend. -/
def clientPost (baseUrl : String) (backend : Backend) (endpoint : String)
    (jsonData : Json) : List Req × Except PyErr Json :=
  let req : Req := ⟨"POST", joinUrl baseUrl endpoint, [], some jsonData⟩
  ([req], backend req)

/-- `url.startswith("/")`: whether the first character is a slash
(written via `String.data` so it evaluates by kernel reduction). -/
def startsWithSlash (u : String) : Bool :=
  match u.data with
  | [] => false
  | c :: _ => c = '/'

/-- The loop body of `_transform_images`: one image dict becomes
`{"type": img.get("coverType", "unknown"), "url": <absolutized url>}`,
where a url starting with `/` gets the base URL prepended and any other
url passes through.  A non-dict image or a non-string url raises
(`AttributeError`) in Python, modelled as `typeError`. -/
def transformOneImage (baseUrl : String) (img : Json) : Except PyErr Json :=
  match img with
  | .obj fs =>
    let coverType := (jget "coverType" fs).getD (.str "unknown")
    match (jget "url" fs).getD (.str "") with
    | .str u =>
      let absoluteUrl := if startsWithSlash u then baseUrl ++ u else u
      .ok (.obj [("type", coverType), ("url", .str absoluteUrl)])
    | _ => .error (.typeError "url value has no attribute startswith")
  | _ => .error (.typeError "image entry has no attribute get")

/-- `_transform_images` (identical in both clients): read
`item.get("images", [])` and map `transformOneImage` over it.  A missing
`images` key yields the empty default; iterating a non-list value raises
in Python except for the vacuous empty-dict/empty-string iterations. -/
def transformImages (baseUrl : String) (item : Json) : Except PyErr Json :=
  match item with
  | .obj fs =>
    match (jget "images" fs).getD (.arr []) with
    | .arr imgs =>
      match imgs.mapM (transformOneImage baseUrl) with
      | .ok l => .ok (.arr l)
      | .error e => .error e
    | .obj [] => .ok (.arr [])
    | .str "" => .ok (.arr [])
    | _ => .error (.typeError "images value is not iterable over dicts")
  | _ => .error (.typeError "item has no attribute get")

/-- The per-element statement `movie["images"] = self._transform_images(movie)`
used by the search/list loops: transform the element's images and store
them back under the `images` key. -/
def setImages (baseUrl : String) (item : Json) : Except PyErr Json :=
  match transformImages baseUrl item with
  | .error e => .error e
  | .ok imgs =>
    match item with
    | .obj fs => .ok (.obj (objSet fs "images" imgs))
    | _ => .error (.typeError "item does not support item assignment")

/-- The list coercion of `search_movies`/`search_series`:
`results if isinstance(results, list) else ([results] if results else [])`. -/
def coerceSearchResults (v : Json) : List Json :=
  match v with
  | .arr l => l
  | w => if w.truthy then [w] else []

/-- `RadarrClient.search_movies`: one GET to `/api/v3/movie/lookup` with
the `term` parameter, coerce to a list, and rewrite every element's
images. -/
def RadarrClient.searchMovies (c : RadarrClient) (query : String) :
    List Req × Except PyErr (List Json) :=
  let (t, r) := clientGet c.baseUrl c.backend "/api/v3/movie/lookup" [("term", query)]
  match r with
  | .error e => (t, .error e)
  | .ok v =>
    match (coerceSearchResults v).mapM (setImages c.baseUrl) with
    | .error e => (t, .error e)
    | .ok l => (t, .ok l)

/-- `SonarrClient.search_series`: one GET to `/api/v3/series/lookup` with
the `term` parameter, coerce to a list, and rewrite every element's
images. -/
def SonarrClient.searchSeries (c : SonarrClient) (query : String) :
    List Req × Except PyErr (List Json) :=
  let (t, r) := clientGet c.baseUrl c.backend "/api/v3/series/lookup" [("term", query)]
  match r with
  | .error e => (t, .error e)
  | .ok v =>
    match (coerceSearchResults v).mapM (setImages c.baseUrl) with
    | .error e => (t, .error e)
    | .ok l => (t, .ok l)

/-- `RadarrClient.list_movies`: one GET to `/api/v3/movie`; a non-list
response coerces to the empty list; every element's images are
rewritten. -/
def RadarrClient.listMovies (c : RadarrClient) : List Req × Except PyErr (List Json) :=
  let (t, r) := clientGet c.baseUrl c.backend "/api/v3/movie" []
  match r with
  | .error e => (t, .error e)
  | .ok v =>
    let l := match v with | .arr l => l | _ => []
    match l.mapM (setImages c.baseUrl) with
    | .error e => (t, .error e)
    | .ok l' => (t, .ok l')

/-- `SonarrClient.list_series`: one GET to `/api/v3/series`; a non-list
response coerces to the empty list; every element's images are
rewritten. -/
def SonarrClient.listSeries (c : SonarrClient) : List Req × Except PyErr (List Json) :=
  let (t, r) := clientGet c.baseUrl c.backend "/api/v3/series" []
  match r with
  | .error e => (t, .error e)
  | .ok v =>
    let l := match v with | .arr l => l | _ => []
    match l.mapM (setImages c.baseUrl) with
    | .error e => (t, .error e)
    | .ok l' => (t, .ok l')

/-- The payload dict built by `RadarrClient.add_movie` from the first
lookup result: canonical fields (`title`, `titleSlug`, `images`, `year`)
come from the looked-up record, placement/monitoring options from the
caller; a truthy `tags` list is appended. -/
def radarrAddPayload (tmdbId qualityProfileId : Int) (rootFolderPath : String)
    (monitor searchForMovie : Bool) (tags : Option (List Int))
    (fs : List (String × Json)) : Json :=
  .obj ([("tmdbId", .num tmdbId),
         ("title", (jget "title" fs).getD .null),
         ("qualityProfileId", .num qualityProfileId),
         ("titleSlug", (jget "titleSlug" fs).getD .null),
         ("images", (jget "images" fs).getD (.arr [])),
         ("year", (jget "year" fs).getD .null),
         ("rootFolderPath", .str rootFolderPath),
         ("monitored", .bool monitor),
         ("addOptions", .obj [("searchForMovie", .bool searchForMovie)])] ++
        (match tags with
         | some (t :: ts) => [("tags", .arr ((t :: ts).map Json.num))]
         | _ => []))

/-- The payload dict built by `SonarrClient.add_series` from the first
lookup result (`monitored` is hard-coded `True`; the `monitor` string and
the search flag live under `addOptions`). -/
def sonarrAddPayload (tvdbId qualityProfileId : Int) (rootFolderPath : String)
    (monitor : String) (searchForMissing seasonFolder : Bool)
    (tags : Option (List Int)) (fs : List (String × Json)) : Json :=
  .obj ([("tvdbId", .num tvdbId),
         ("title", (jget "title" fs).getD .null),
         ("qualityProfileId", .num qualityProfileId),
         ("titleSlug", (jget "titleSlug" fs).getD .null),
         ("images", (jget "images" fs).getD (.arr [])),
         ("seasons", (jget "seasons" fs).getD (.arr [])),
         ("rootFolderPath", .str rootFolderPath),
         ("monitored", .bool true),
         ("seasonFolder", .bool seasonFolder),
         ("addOptions", .obj [("monitor", .str monitor),
                              ("searchForMissingEpisodes", .bool searchForMissing)])] ++
        (match tags with
         | some (t :: ts) => [("tags", .arr ((t :: ts).map Json.num))]
         | _ => []))

/-- `if result and "images" in result:` membership test of the add
response (`in` on a dict checks keys, on a list checks elements, on a
string checks substrings, and raises `TypeError` on numbers/booleans). -/
def containsImagesKey : Json → Except PyErr Bool
  | .obj fs => .ok (jget "images" fs).isSome
  | .arr l => .ok (l.any (fun v => match v with | .str s => s = "images" | _ => false))
  | .str s => .ok ((s.splitOn "images").length > 1)
  | .null => .ok false
  | _ => .error (.typeError "argument of type is not iterable")

/-- The image rewrite applied to the POST response of an add operation:
only a truthy result containing an `images` key is transformed. -/
def transformAddResult (baseUrl : String) (result : Json) : Except PyErr Json :=
  if result.truthy then
    match containsImagesKey result with
    | .error e => .error e
    | .ok true => setImages baseUrl result
    | .ok false => .ok result
  else .ok result

/-- `RadarrClient.add_movie`: look the movie up via
`search_movies("tmdb:<id>")`; an empty lookup raises
`ValueError("Movie with TMDB ID <id> not found")` without any POST;
otherwise POST the payload built from the first lookup result to
`/api/v3/movie` and rewrite the images of a truthy response. -/
def RadarrClient.addMovie (c : RadarrClient) (tmdbId qualityProfileId : Int)
    (rootFolderPath : String) (monitor searchForMovie : Bool)
    (tags : Option (List Int)) : List Req × Except PyErr Json :=
  let (t1, r1) := c.searchMovies ("tmdb:" ++ toString tmdbId)
  match r1 with
  | .error e => (t1, .error e)
  | .ok [] =>
    (t1, .error (.valueError ("Movie with TMDB ID " ++ toString tmdbId ++ " not found")))
  | .ok (movieData :: _) =>
    match movieData with
    | .obj fs =>
      let payload := radarrAddPayload tmdbId qualityProfileId rootFolderPath
        monitor searchForMovie tags fs
      let (t2, r2) := clientPost c.baseUrl c.backend "/api/v3/movie" payload
      match r2 with
      | .error e => (t1 ++ t2, .error e)
      | .ok result => (t1 ++ t2, transformAddResult c.baseUrl result)
    | _ => (t1, .error (.typeError "movie data has no attribute get"))

/-- `SonarrClient.add_series`: look the series up via
`search_series("tvdb:<id>")`; an empty lookup raises
`ValueError("Series with TVDB ID <id> not found")` without any POST;
otherwise POST the payload built from the first lookup result to
`/api/v3/series` and rewrite the images of a truthy response. -/
def SonarrClient.addSeries (c : SonarrClient) (tvdbId qualityProfileId : Int)
    (rootFolderPath : String) (monitor : String)
    (searchForMissing seasonFolder : Bool) (tags : Option (List Int)) :
    List Req × Except PyErr Json :=
  let (t1, r1) := c.searchSeries ("tvdb:" ++ toString tvdbId)
  match r1 with
  | .error e => (t1, .error e)
  | .ok [] =>
    (t1, .error (.valueError ("Series with TVDB ID " ++ toString tvdbId ++ " not found")))
  | .ok (seriesData :: _) =>
    match seriesData with
    | .obj fs =>
      let payload := sonarrAddPayload tvdbId qualityProfileId rootFolderPath
        monitor searchForMissing seasonFolder tags fs
      let (t2, r2) := clientPost c.baseUrl c.backend "/api/v3/series" payload
      match r2 with
      | .error e => (t1 ++ t2, .error e)
      | .ok result => (t1 ++ t2, transformAddResult c.baseUrl result)
    | _ => (t1, .error (.typeError "series data has no attribute get"))

/-! ## Spec-modelled client operations

`RadarrTools`/`SonarrTools` call `get_queue`, `get_calendar` and
`get_system_status` on their clients, but these client methods are not
present under `src/` (only their callers are).  They are modelled from the
spec below.  Calendar dates are modelled as day numbers rendered into the
query string; `today` is the current day supplied by the environment. -/

/-- Modelled from the spec: `RadarrClient.get_queue` (absent from `src/`,
called by `RadarrTools.get_queue`) performs a single GET to
`/api/v3/queue` with the `page` and `pageSize` parameters. -/
def RadarrClient.getQueue (c : RadarrClient) (page pageSize : Int) :
    List Req × Except PyErr Json :=
  clientGet c.baseUrl c.backend "/api/v3/queue"
    [("page", toString page), ("pageSize", toString pageSize)]

/-- Modelled from the spec: `SonarrClient.get_queue` (absent from `src/`,
called by `SonarrTools.get_queue`) performs a single GET to
`/api/v3/queue` with the `page` and `pageSize` parameters. -/
def SonarrClient.getQueue (c : SonarrClient) (page pageSize : Int) :
    List Req × Except PyErr Json :=
  clientGet c.baseUrl c.backend "/api/v3/queue"
    [("page", toString page), ("pageSize", toString pageSize)]

/-- Modelled from the spec: `RadarrClient.get_calendar` (absent from
`src/`, called by `RadarrTools.get_calendar`) performs a single GET to
`/api/v3/calendar`; an omitted start date defaults to today and an
omitted end date to today + 30 days (movies). -/
def RadarrClient.getCalendar (c : RadarrClient) (today : Nat)
    (startDate endDate : Option Nat) : List Req × Except PyErr Json :=
  let s := startDate.getD today
  let e := endDate.getD (today + 30)
  clientGet c.baseUrl c.backend "/api/v3/calendar"
    [("start", toString s), ("end", toString e)]

/-- Modelled from the spec: `SonarrClient.get_calendar` (absent from
`src/`, called by `SonarrTools.get_calendar`) performs a single GET to
`/api/v3/calendar`; an omitted start date defaults to today and an
omitted end date to today + 7 days (series). -/
def SonarrClient.getCalendar (c : SonarrClient) (today : Nat)
    (startDate endDate : Option Nat) : List Req × Except PyErr Json :=
  let s := startDate.getD today
  let e := endDate.getD (today + 7)
  clientGet c.baseUrl c.backend "/api/v3/calendar"
    [("start", toString s), ("end", toString e)]

/-- Modelled from the spec: `RadarrClient.get_system_status` (absent from
`src/`, called by `RadarrTools.get_system_status`) performs a single GET
to `/api/v3/system/status` with no parameters. -/
def RadarrClient.getSystemStatus (c : RadarrClient) : List Req × Except PyErr Json :=
  clientGet c.baseUrl c.backend "/api/v3/system/status" []

/-- Modelled from the spec: `SonarrClient.get_system_status` (absent from
`src/`, called by `SonarrTools.get_system_status`) performs a single GET
to `/api/v3/system/status` with no parameters. -/
def SonarrClient.getSystemStatus (c : SonarrClient) : List Req × Except PyErr Json :=
  clientGet c.baseUrl c.backend "/api/v3/system/status" []

/-! ## Instance registry and tool adapters
(`src/tools/radarr_tools.py`, `src/tools/sonarr_tools.py`) -/

/-- `", ".join(str(i) for i in ks)`. -/
def joinComma : List Nat → String
  | [] => ""
  | [k] => toString k
  | k :: ks => toString k ++ ", " ++ joinComma ks

/-- The `ValueError` message of `_get_client` for an unregistered id:
the available ids are rendered sorted ascending
(`sorted(self.clients.keys())`). -/
def unknownInstanceMsg (svc : String) (i : Nat) (keys : List Nat) : String :=
  svc ++ " instance " ++ toString i ++ " not found. Available instances: " ++
    joinComma (List.insertionSort (· ≤ ·) keys)

/-- `RadarrTools._get_client` / `SonarrTools._get_client` (they differ
only in the service name of the error message).  The registry is the
`self.clients` dict as an association list in insertion order with unique
keys.  An omitted id is substituted by `min(self.clients.keys())`
(modelled as the head of the ascending sort; `min()` of an empty registry
raises `ValueError`); an id absent from the registry raises `ValueError`
listing the registered ids. -/
def getClient {γ : Type} (svc : String) (clients : List (Nat × γ))
    (iid : Option Nat) : Except PyErr γ :=
  let keys := clients.map Prod.fst
  let effective := match iid with
    | none => (List.insertionSort (· ≤ ·) keys).head?
    | some i => some i
  match effective with
  | none => .error (.valueError "min() arg is an empty sequence")
  | some i =>
    match clients.lookup i with
    | some c => .ok c
    | none => .error (.valueError (unknownInstanceMsg svc i keys))

mutual

/-- A serializer standing in for `json.dumps(..., indent=2)`; the
adapter-boundary claims depend only on its existence as a total string
rendering, not on its whitespace. -/
def Json.dumps : Json → String
  | .null => "null"
  | .bool true => "true"
  | .bool false => "false"
  | .num n => toString n
  | .str s => "\x22" ++ s ++ "\x22"
  | .arr l => "[" ++ String.intercalate ", " (dumpsElems l) ++ "]"
  | .obj fs => "\x7b" ++ String.intercalate ", " (dumpsFields fs) ++ "\x7d"

def dumpsElems : List Json → List String
  | [] => []
  | v :: vs => Json.dumps v :: dumpsElems vs

def dumpsFields : List (String × Json) → List String
  | [] => []
  | (k, v) :: fs => ("\x22" ++ k ++ "\x22: " ++ Json.dumps v) :: dumpsFields fs

end

/-- The per-movie reshaping of `RadarrTools.search_movies` (a non-dict
element would raise `AttributeError` at `.get`). -/
def formatSearchMovie : Json → Except PyErr Json
  | .obj fs =>
    .ok (.obj [("title", (jget "title" fs).getD .null),
               ("year", (jget "year" fs).getD .null),
               ("tmdbId", (jget "tmdbId" fs).getD .null),
               ("imdbId", (jget "imdbId" fs).getD .null),
               ("overview", (jget "overview" fs).getD .null),
               ("status", (jget "status" fs).getD .null),
               ("runtime", (jget "runtime" fs).getD .null),
               ("studio", (jget "studio" fs).getD .null),
               ("images", (jget "images" fs).getD (.arr []))])
  | _ => .error (.typeError "search result has no attribute get")

/-- Python `len` on a JSON value (lists, strings and dicts are sized;
anything else raises `TypeError`). -/
def jsonLen : Json → Except PyErr Int
  | .arr l => .ok l.length
  | .str s => .ok s.length
  | .obj fs => .ok fs.length
  | _ => .error (.typeError "object has no len")

/-- The per-series reshaping of `SonarrTools.search_series` (`seasons`
is rendered as `len(series.get("seasons", []))`). -/
def formatSearchSeries : Json → Except PyErr Json
  | .obj fs => do
    let seasonCount ← jsonLen ((jget "seasons" fs).getD (.arr []))
    .ok (.obj [("title", (jget "title" fs).getD .null),
               ("year", (jget "year" fs).getD .null),
               ("tvdbId", (jget "tvdbId" fs).getD .null),
               ("overview", (jget "overview" fs).getD .null),
               ("status", (jget "status" fs).getD .null),
               ("network", (jget "network" fs).getD .null),
               ("images", (jget "images" fs).getD (.arr [])),
               ("seasons", .num seasonCount)])
  | _ => .error (.typeError "search result has no attribute get")

/-- The body of the `try` block of `RadarrTools.search_movies`: resolve
the client, search, reshape every result, serialize. -/
def RadarrTools.searchMoviesCore (clients : List (Nat × RadarrClient))
    (query : String) (iid : Option Nat) : Except PyErr String := do
  let c ← getClient "Radarr" clients iid
  let results ← (c.searchMovies query).2
  let formatted ← results.mapM formatSearchMovie
  pure (Json.dumps (.arr formatted))

/-- The body of the `try` block of `SonarrTools.search_series`. -/
def SonarrTools.searchSeriesCore (clients : List (Nat × SonarrClient))
    (query : String) (iid : Option Nat) : Except PyErr String := do
  let c ← getClient "Sonarr" clients iid
  let results ← (c.searchSeries query).2
  let formatted ← results.mapM formatSearchSeries
  pure (Json.dumps (.arr formatted))

/-- The `except` chain of the search/list/history/queue/calendar/status
tools: `ArrClientError` renders as `"Error: ..."`, anything else as
`"Unexpected error: ..."`. -/
def renderToolError (e : PyErr) : String :=
  if e.isArrClientError then "Error: " ++ e.msgStr
  else "Unexpected error: " ++ e.msgStr

/-- The `except` chain of the add tools, which catch `ValueError`
(rendered `"Validation error: ..."`) before `ArrClientError`. -/
def renderAddToolError (e : PyErr) : String :=
  match e with
  | .valueError m => "Validation error: " ++ m
  | _ => renderToolError e

/-- `RadarrTools.search_movies`: the try body guarded by the except
chain; always returns a string. -/
def RadarrTools.searchMovies (clients : List (Nat × RadarrClient))
    (query : String) (iid : Option Nat) : String :=
  match RadarrTools.searchMoviesCore clients query iid with
  | .ok s => s
  | .error e => renderToolError e

/-- `SonarrTools.search_series`: the try body guarded by the except
chain; always returns a string. -/
def SonarrTools.searchSeries (clients : List (Nat × SonarrClient))
    (query : String) (iid : Option Nat) : String :=
  match SonarrTools.searchSeriesCore clients query iid with
  | .ok s => s
  | .error e => renderToolError e

/-- The result reshaping of `RadarrTools.add_movie` (a non-dict result
raises `AttributeError` at `.get`). -/
def formatAddedMovie : Json → Except PyErr Json
  | .obj fs =>
    .ok (.obj [("success", .bool true),
               ("title", (jget "title" fs).getD .null),
               ("year", (jget "year" fs).getD .null),
               ("tmdbId", (jget "tmdbId" fs).getD .null),
               ("path", (jget "path" fs).getD .null),
               ("monitored", (jget "monitored" fs).getD .null),
               ("images", (jget "images" fs).getD (.arr []))])
  | _ => .error (.typeError "result has no attribute get")

/-- The result reshaping of `SonarrTools.add_series`. -/
def formatAddedSeries : Json → Except PyErr Json
  | .obj fs =>
    .ok (.obj [("success", .bool true),
               ("title", (jget "title" fs).getD .null),
               ("tvdbId", (jget "tvdbId" fs).getD .null),
               ("path", (jget "path" fs).getD .null),
               ("monitored", (jget "monitored" fs).getD .null),
               ("images", (jget "images" fs).getD (.arr []))])
  | _ => .error (.typeError "result has no attribute get")

/-- The body of the `try` block of `RadarrTools.add_movie` (the tool
passes no tags). -/
def RadarrTools.addMovieCore (clients : List (Nat × RadarrClient))
    (tmdbId qualityProfileId : Int) (rootFolderPath : String)
    (iid : Option Nat) (monitor searchForMovie : Bool) : Except PyErr String := do
  let c ← getClient "Radarr" clients iid
  let result ← (c.addMovie tmdbId qualityProfileId rootFolderPath
    monitor searchForMovie none).2
  let formatted ← formatAddedMovie result
  pure (Json.dumps formatted)

/-- `RadarrTools.add_movie`: the try body guarded by the
ValueError/ArrClientError/Exception chain; always returns a string. -/
def RadarrTools.addMovie (clients : List (Nat × RadarrClient))
    (tmdbId qualityProfileId : Int) (rootFolderPath : String)
    (iid : Option Nat) (monitor searchForMovie : Bool) : String :=
  match RadarrTools.addMovieCore clients tmdbId qualityProfileId
    rootFolderPath iid monitor searchForMovie with
  | .ok s => s
  | .error e => renderAddToolError e

/-- The body of the `try` block of `SonarrTools.add_series` (the tool
passes no tags and leaves `season_folder` at its client default). -/
def SonarrTools.addSeriesCore (clients : List (Nat × SonarrClient))
    (tvdbId qualityProfileId : Int) (rootFolderPath : String)
    (iid : Option Nat) (monitor : String) (searchForMissing : Bool) :
    Except PyErr String := do
  let c ← getClient "Sonarr" clients iid
  let result ← (c.addSeries tvdbId qualityProfileId rootFolderPath
    monitor searchForMissing true none).2
  let formatted ← formatAddedSeries result
  pure (Json.dumps formatted)

/-- `SonarrTools.add_series`: the try body guarded by the
ValueError/ArrClientError/Exception chain; always returns a string. -/
def SonarrTools.addSeries (clients : List (Nat × SonarrClient))
    (tvdbId qualityProfileId : Int) (rootFolderPath : String)
    (iid : Option Nat) (monitor : String) (searchForMissing : Bool) : String :=
  match SonarrTools.addSeriesCore clients tvdbId qualityProfileId
    rootFolderPath iid monitor searchForMissing with
  | .ok s => s
  | .error e => renderAddToolError e

/-! ## Transport-layer lemmas and claims C2, C3 -/

/-- A first attempt with a status outside the forcelist ends the session
immediately: one attempt, no delays. -/
theorem retryLoop_first_not_retried (oracle : Nat → Attempt) (f : ℚ)
    (total s : Nat) (b : Body) (h : oracle 0 = .response s b)
    (hs : s ∉ statusForcelist) :
    sessionRun oracle f total = ⟨1, [], .response s b⟩ := by
  cases total with
  | zero =>
    unfold sessionRun retryLoop
    rw [h]
    simp [Attempt.toSessionResult]
  | succ r =>
    unfold sessionRun retryLoop
    rw [h]
    simp [Attempt.isRetried, Attempt.toSessionResult, hs]

/-- Closed form of the retry loop when every attempt is retried: it runs
through the whole budget, sleeping `backoffTime` before each retry, and
ends on the outcome of the last attempt. -/
theorem retryLoop_all_retried (oracle : Nat → Attempt) (f : ℚ)
    (h : ∀ k, (oracle k).isRetried = true) :
    ∀ (r k : Nat), retryLoop oracle f k r =
      ⟨k + r + 1, (List.range r).map (fun i => backoffTime f (k + 1 + i)),
       (oracle (k + r)).toSessionResult⟩ := by
  intro r
  induction r with
  | zero =>
    intro k
    simp [retryLoop]
  | succ r ih =>
    intro k
    rw [retryLoop, if_pos (h k), ih (k + 1)]
    simp only [SessionOutcome.mk.injEq]
    refine ⟨by omega, ?_, by rw [show k + 1 + r = k + (r + 1) by omega]⟩
    rw [List.range_succ_eq_map, List.map_cons, List.map_map]
    simp only [Function.comp, Nat.add_zero]
    refine congrArg _ ?_
    refine List.map_congr_left ?_
    intro i _
    exact congrArg (backoffTime f) (by omega)

/-- C2 counterexample: against a backend that answers 500 on every
attempt, the session configured with `max_retries = 3` and
`backoff_factor = 1/2` issues 4 attempts (one initial request plus
`total = 3` urllib3 retries), not the 3 attempts the claim states, and
its delay schedule is `[0, 1, 2]` (the first urllib3 retry does not
sleep), not `backoff_factor * 2^(k-1)` before attempt `k`. -/
theorem retry_attempt_count_counterexample :
    (sessionRun (fun _ => Attempt.response 500 (Body.rawBody "boom")) (1/2) 3).attempts = 4 ∧
    (sessionRun (fun _ => Attempt.response 500 (Body.rawBody "boom")) (1/2) 3).attempts ≠ 3 ∧
    (sessionRun (fun _ => Attempt.response 500 (Body.rawBody "boom")) (1/2) 3).delays
      = [0, 1, 2] := by
  have h := retryLoop_all_retried (fun _ => Attempt.response 500 (Body.rawBody "boom"))
    (1/2) (fun _ => rfl) 3 0
  rw [sessionRun] at *
  refine ⟨by rw [h], by rw [h]; decide, ?_⟩
  rw [h]
  norm_num [List.range_succ, backoffTime]

/-- Any forcelist status is classified by `_make_request` as an
`ArrAPIError` carrying that status code (the 5xx members with the
`"Server error"` message, 429 with the generic one). -/
theorem classify_forcelist (endpoint : String) (s : Nat) (b : Body)
    (hs : s ∈ statusForcelist) :
    classifyResponse endpoint s b =
      .error (.api (.str ((if 500 ≤ s then "Server error: " else "API request failed: ")
        ++ toString s ++ " - " ++ b.text.take 100)) s) := by
  fin_cases hs <;> norm_num [classifyResponse]

/-- C2 (amended): when every attempt fails retryably (connection failure,
timeout, or status in {429, 500, 502, 503, 504}), the session configured
with `max_retries = 3` issues exactly 4 attempts (one initial request
plus 3 urllib3 retries) — not 3 — with delays `[0, backoff_factor * 2,
backoff_factor * 4]` (the first retry does not sleep), and
`_make_request` then surfaces a typed error: `ArrNetworkError` for
exhausted connection failures/timeouts, `ArrAPIError` carrying the
forcelist status otherwise.  A first response with a status outside the
forcelist is never retried: the session ends after exactly one attempt. -/
theorem retry_exhaustion_four_attempts (oracle : Nat → Attempt) (f : ℚ)
    (baseUrl endpoint : String) (hf : f ≤ 30) :
    ((∀ k, (oracle k).isRetried = true) →
      (sessionRun oracle f 3).attempts = 4 ∧
      (sessionRun oracle f 3).delays = [0, f * 2, f * 4] ∧
      ∃ e, (makeRequest baseUrl oracle f 3 endpoint).2 = Except.error e ∧
        ((∃ m, e = ArrError.network m) ∨
         (∃ m s, e = ArrError.api m s ∧ s ∈ statusForcelist))) ∧
    (∀ (s : Nat) (b : Body) (total : Nat),
      oracle 0 = Attempt.response s b → s ∉ statusForcelist →
      sessionRun oracle f total = ⟨1, [], SessionResult.response s b⟩) := by
  constructor
  · intro h
    have hc := retryLoop_all_retried oracle f h 3 0
    have h1 : backoffTime f 1 = 0 := rfl
    have h2 : backoffTime f 2 = f * 2 := by
      rw [backoffTime, if_neg (by norm_num),
        show ((2:ℚ)) ^ (2 - 1) = 2 by norm_num, if_pos (by linarith)]
    have h3 : backoffTime f 3 = f * 4 := by
      rw [backoffTime, if_neg (by norm_num),
        show ((2:ℚ)) ^ (3 - 1) = 4 by norm_num, if_pos (by linarith)]
    refine ⟨by rw [sessionRun, hc], ?_, ?_⟩
    · rw [sessionRun, hc]
      show (List.range 3).map (fun i => backoffTime f (0 + 1 + i)) = _
      norm_num [List.range_succ, h1, h2, h3]
    · have hres : (sessionRun oracle f 3).result = (oracle 3).toSessionResult := by
        rw [sessionRun, hc]
      have hmk : (makeRequest baseUrl oracle f 3 endpoint).2 =
          (match (sessionRun oracle f 3).result with
           | SessionResult.connFailure =>
               Except.error (ArrError.network ("Failed to connect to " ++ baseUrl))
           | SessionResult.timeoutFailure =>
               Except.error (ArrError.network
                 ("Request timeout: " ++ (baseUrl ++ "/" ++ endpoint.dropWhile (· = '/'))))
           | SessionResult.response s b => classifyResponse endpoint s b) := rfl
      rw [hmk, hres]
      cases ho : oracle 3 with
      | response s b =>
        have hs := h 3
        rw [ho] at hs
        simp only [Attempt.isRetried, decide_eq_true_eq] at hs
        simp only [Attempt.toSessionResult]
        rw [classify_forcelist endpoint s b hs]
        exact ⟨_, rfl, Or.inr ⟨_, s, rfl, hs⟩⟩
      | connError =>
        simp only [Attempt.toSessionResult]
        exact ⟨_, rfl, Or.inl ⟨_, rfl⟩⟩
      | timeoutErr =>
        simp only [Attempt.toSessionResult]
        exact ⟨_, rfl, Or.inl ⟨_, rfl⟩⟩
  · intro s b total h0 hs
    exact retryLoop_first_not_retried oracle f total s b h0 hs

/-- Witness for the amended C2 theorem: a backend failing every attempt
with a connection error yields 4 attempts; a first 200 response yields a
single attempt. -/
theorem retry_exhaustion_four_attempts_witness :
    (sessionRun (fun _ => Attempt.connError) (1/2) 3).attempts = 4 ∧
    (sessionRun (fun _ => Attempt.response 200 Body.empty) (1/2) 7).attempts = 1 := by
  constructor
  · exact ((retry_exhaustion_four_attempts (fun _ => Attempt.connError) (1/2) "b" "/e"
      (by norm_num)).1 (fun _ => rfl)).1
  · have h := (retry_exhaustion_four_attempts (fun _ => Attempt.response 200 Body.empty)
      (1/2) "b" "/e" (by norm_num)).2 200 Body.empty 7 rfl (by decide)
    rw [h]

/-- C3: a first response with status 401, 404 or 400 is never retried —
exactly one attempt is made — and `_make_request` raises the
corresponding typed `ArrAPIError`; for 400 the message comes from the
body by the extraction rule: the first element's `errorMessage` field
for a JSON-array body, the `message` field for a JSON-object body, and
the generic `"Bad request"` for an unparseable or empty body. -/
theorem client_error_single_attempt_typed (oracle : Nat → Attempt) (f : ℚ)
    (total : Nat) (baseUrl endpoint : String) (b : Body) :
    (oracle 0 = .response 401 b →
      (makeRequest baseUrl oracle f total endpoint).1.attempts = 1 ∧
      (makeRequest baseUrl oracle f total endpoint).2 =
        .error (.api (.str "Authentication failed. Please check your API key.") 401)) ∧
    (oracle 0 = .response 404 b →
      (makeRequest baseUrl oracle f total endpoint).1.attempts = 1 ∧
      (makeRequest baseUrl oracle f total endpoint).2 =
        .error (.api (.str ("Resource not found: " ++ endpoint)) 404)) ∧
    (oracle 0 = .response 400 b →
      (makeRequest baseUrl oracle f total endpoint).1.attempts = 1 ∧
      (makeRequest baseUrl oracle f total endpoint).2 =
        .error (.api (extract400Message b) 400)) ∧
    (∀ (t : String) (fs : List (String × Json)) (rest : List Json) (m : Json),
      jget "errorMessage" fs = some m →
      extract400Message (.jsonBody t (.arr (.obj fs :: rest))) = m) ∧
    (∀ (t : String) (fs : List (String × Json)) (m : Json),
      jget "message" fs = some m →
      extract400Message (.jsonBody t (.obj fs)) = m) ∧
    (∀ t, extract400Message (.rawBody t) = .str "Bad request") ∧
    extract400Message .empty = .str "Bad request" := by
  have key : ∀ (s : Nat), s ∉ statusForcelist → oracle 0 = .response s b →
      (makeRequest baseUrl oracle f total endpoint).1.attempts = 1 ∧
      (makeRequest baseUrl oracle f total endpoint).2 = classifyResponse endpoint s b := by
    intro s hs h0
    have hsess := retryLoop_first_not_retried oracle f total s b h0 hs
    have h1 : (makeRequest baseUrl oracle f total endpoint).1 = sessionRun oracle f total := rfl
    have hmk : (makeRequest baseUrl oracle f total endpoint).2 =
        (match (sessionRun oracle f total).result with
         | SessionResult.connFailure =>
             Except.error (ArrError.network ("Failed to connect to " ++ baseUrl))
         | SessionResult.timeoutFailure =>
             Except.error (ArrError.network
               ("Request timeout: " ++ (baseUrl ++ "/" ++ endpoint.dropWhile (· = '/'))))
         | SessionResult.response s b => classifyResponse endpoint s b) := rfl
    rw [h1, hsess]
    rw [hmk, hsess]
    exact ⟨rfl, rfl⟩
  refine ⟨?_, ?_, ?_, ?_, ?_, fun t => rfl, rfl⟩
  · intro h0
    have := key 401 (by decide) h0
    rw [this.2]
    exact ⟨this.1, by norm_num [classifyResponse]⟩
  · intro h0
    have := key 404 (by decide) h0
    rw [this.2]
    exact ⟨this.1, by norm_num [classifyResponse]⟩
  · intro h0
    have := key 400 (by decide) h0
    rw [this.2]
    exact ⟨this.1, by norm_num [classifyResponse]⟩
  · intro t fs rest m hm
    simp [extract400Message, hm]
  · intro t fs m hm
    simp [extract400Message, hm]

/-- Witness for C3: a 401 response gives one attempt and the
authentication error; a 400 response with an array body carrying
`errorMessage` surfaces that message. -/
theorem client_error_single_attempt_typed_witness :
    ((makeRequest "http://h" (fun _ => Attempt.response 401 Body.empty)
        (1/2) 3 "/api/v3/movie").1.attempts = 1 ∧
      (makeRequest "http://h" (fun _ => Attempt.response 401 Body.empty)
        (1/2) 3 "/api/v3/movie").2 =
        .error (.api (.str "Authentication failed. Please check your API key.") 401)) ∧
    (makeRequest "http://h"
        (fun _ => Attempt.response 400
          (Body.jsonBody "x" (.arr [.obj [("errorMessage", .str "bad id")]])))
        (1/2) 3 "/e").2 = .error (.api (.str "bad id") 400) := by
  constructor
  · exact (client_error_single_attempt_typed (fun _ => Attempt.response 401 Body.empty)
      (1/2) 3 "http://h" "/api/v3/movie" Body.empty).1 rfl
  · have h := (client_error_single_attempt_typed
      (fun _ => Attempt.response 400
        (Body.jsonBody "x" (.arr [.obj [("errorMessage", .str "bad id")]])))
      (1/2) 3 "http://h" "/e"
      (Body.jsonBody "x" (.arr [.obj [("errorMessage", .str "bad id")]]))).2.2.1 rfl
    rw [h.2]
    rfl

/-! ## Instance registry: claim C4 -/

/-- In a registry with distinct keys, `lookup` finds exactly the client
paired with a registered key. -/
theorem lookup_of_mem_nodup {γ : Type} :
    ∀ (clients : List (Nat × γ)) (m : Nat) (c : γ),
      (clients.map Prod.fst).Nodup → (m, c) ∈ clients → clients.lookup m = some c := by
  intro clients
  induction clients with
  | nil =>
    intro m c _ hm
    cases hm
  | cons kv rest ih =>
    intro m c hnd hm
    obtain ⟨k, v⟩ := kv
    rw [List.map_cons, List.nodup_cons] at hnd
    rcases List.mem_cons.mp hm with heq | hmem
    · injection heq with h1 h2
      subst h1
      subst h2
      simp [List.lookup]
    · have hne : m ≠ k := by
        rintro rfl
        exact hnd.1 (List.mem_map.mpr ⟨(m, c), hmem, rfl⟩)
      have hbeq : (m == k) = false := beq_eq_false_iff_ne.mpr hne
      simp only [List.lookup, hbeq]
      exact ih m c hnd.2 hmem

/-- `lookup` of an unregistered key yields nothing. -/
theorem lookup_eq_none_of_not_mem {γ : Type} :
    ∀ (clients : List (Nat × γ)) (i : Nat),
      i ∉ clients.map Prod.fst → clients.lookup i = none := by
  intro clients
  induction clients with
  | nil =>
    intro i _
    rfl
  | cons kv rest ih =>
    intro i hi
    obtain ⟨k, v⟩ := kv
    rw [List.map_cons] at hi
    have h1 : i ≠ k := fun h => hi (h ▸ List.mem_cons_self _ _)
    have h2 : i ∉ rest.map Prod.fst := fun h => hi (List.mem_cons_of_mem _ h)
    have hbeq : (i == k) = false := beq_eq_false_iff_ne.mpr h1
    simp only [List.lookup, hbeq]
    exact ih i h2

/-- The head of the ascending insertion sort is the minimum element. -/
theorem sorted_head_min (keys : List Nat) (m : Nat) (hm : m ∈ keys)
    (hmin : ∀ k ∈ keys, m ≤ k) :
    (List.insertionSort (· ≤ ·) keys).head? = some m := by
  have hperm : (List.insertionSort (· ≤ ·) keys).Perm keys := List.perm_insertionSort _ _
  have hsorted : (List.insertionSort (· ≤ ·) keys).Sorted (· ≤ ·) :=
    List.sorted_insertionSort _ _
  obtain ⟨l, hs⟩ : ∃ l, List.insertionSort (· ≤ ·) keys = l := ⟨_, rfl⟩
  rw [hs] at hperm hsorted ⊢
  cases l with
  | nil =>
    exfalso
    have hmem := hperm.mem_iff.mpr hm
    cases hmem
  | cons x xs =>
    have hxmem : x ∈ keys := hperm.mem_iff.mp (List.mem_cons_self x xs)
    have hmx : m ≤ x := hmin x hxmem
    have hxm : x ≤ m := by
      have hmem : m ∈ x :: xs := hperm.mem_iff.mpr hm
      rcases List.mem_cons.mp hmem with rfl | hmem
      · exact le_refl _
      · exact (List.sorted_cons.mp hsorted).1 m hmem
    rw [le_antisymm hxm hmx]
    rfl

/-- C4: in a non-empty registry, resolving with no instance id returns
the client registered under the minimum id; resolving an unregistered id
fails with the `ValueError` whose message lists all registered ids, and
that list is rendered in ascending order (the rendered sequence is the
unique sorted permutation of the registered ids). -/
theorem registry_resolve_min_and_unknown {γ : Type} (svc : String)
    (clients : List (Nat × γ)) (hnd : (clients.map Prod.fst).Nodup) :
    (∀ (m : Nat) (c : γ), (m, c) ∈ clients →
      (∀ k ∈ clients.map Prod.fst, m ≤ k) →
      getClient svc clients none = .ok c) ∧
    (∀ i, i ∉ clients.map Prod.fst →
      getClient svc clients (some i) =
        .error (.valueError (unknownInstanceMsg svc i (clients.map Prod.fst)))) ∧
    (∀ (i : Nat) (ks : List Nat), ks.Perm (clients.map Prod.fst) →
      ks.Sorted (· ≤ ·) →
      unknownInstanceMsg svc i (clients.map Prod.fst) =
        svc ++ " instance " ++ toString i ++ " not found. Available instances: " ++
          joinComma ks) := by
  refine ⟨?_, ?_, ?_⟩
  · intro m c hm hmin
    have hm' : m ∈ clients.map Prod.fst := List.mem_map_of_mem Prod.fst hm
    have hhead := sorted_head_min (clients.map Prod.fst) m hm' hmin
    have hlook := lookup_of_mem_nodup clients m c hnd hm
    simp only [getClient]
    rw [hhead]
    simp only [hlook]
  · intro i hi
    have hlook := lookup_eq_none_of_not_mem clients i hi
    simp only [getClient]
    rw [hlook]
  · intro i ks hperm hsorted
    have hks : ks = List.insertionSort (· ≤ ·) (clients.map Prod.fst) := by
      refine List.eq_of_perm_of_sorted ?_ hsorted (List.sorted_insertionSort _ _)
      exact hperm.trans (List.perm_insertionSort _ _).symm
    rw [unknownInstanceMsg, hks]

/-- Witness for C4 on the registry {1 ↦ "alpha", 2 ↦ "beta"} stored in
reversed insertion order: the default resolves to instance 1, and
instance 3 fails listing "1, 2". -/
theorem registry_resolve_min_and_unknown_witness :
    getClient "Radarr" [(2, "beta"), (1, "alpha")] none = .ok "alpha" ∧
    getClient "Radarr" [(2, "beta"), (1, "alpha")] (some 3) =
      .error (.valueError "Radarr instance 3 not found. Available instances: 1, 2") := by
  have h := registry_resolve_min_and_unknown "Radarr" [(2, "beta"), (1, "alpha")]
    (by decide)
  constructor
  · exact h.1 1 "alpha" (by simp) (by decide)
  · have h2 := h.2.1 3 (by decide)
    rw [h2]
    rfl

/-! ## Client-layer lemmas -/

/-- The lookup request issued by `RadarrClient.search_movies`. -/
def radarrLookupReq (c : RadarrClient) (q : String) : Req :=
  ⟨"GET", joinUrl c.baseUrl "/api/v3/movie/lookup", [("term", q)], none⟩

/-- The lookup request issued by `SonarrClient.search_series`. -/
def sonarrLookupReq (c : SonarrClient) (q : String) : Req :=
  ⟨"GET", joinUrl c.baseUrl "/api/v3/series/lookup", [("term", q)], none⟩

/-- `search_movies` always issues exactly its one lookup GET. -/
theorem searchMovies_trace (c : RadarrClient) (q : String) :
    (c.searchMovies q).1 = [radarrLookupReq c q] := by
  simp only [RadarrClient.searchMovies, clientGet, radarrLookupReq]
  rcases hb : c.backend ⟨"GET", joinUrl c.baseUrl "/api/v3/movie/lookup", [("term", q)], none⟩
    with e | v
  · rfl
  · dsimp only
    rcases hm : (coerceSearchResults v).mapM (setImages c.baseUrl) with e | l <;> rfl

/-- `search_series` always issues exactly its one lookup GET. -/
theorem searchSeries_trace (c : SonarrClient) (q : String) :
    (c.searchSeries q).1 = [sonarrLookupReq c q] := by
  simp only [SonarrClient.searchSeries, clientGet, sonarrLookupReq]
  rcases hb : c.backend ⟨"GET", joinUrl c.baseUrl "/api/v3/series/lookup", [("term", q)], none⟩
    with e | v
  · rfl
  · dsimp only
    rcases hm : (coerceSearchResults v).mapM (setImages c.baseUrl) with e | l <;> rfl

/-- `search_movies` on a successful backend answer: coerce to a list and
map the image rewrite; a successful rewrite of every element is the
result. -/
theorem searchMovies_result_ok (c : RadarrClient) (q : String) (v : Json)
    (l' : List Json) (hb : c.backend (radarrLookupReq c q) = .ok v)
    (hmap : (coerceSearchResults v).mapM (setImages c.baseUrl) = .ok l') :
    c.searchMovies q = ([radarrLookupReq c q], .ok l') := by
  simp only [radarrLookupReq] at hb ⊢
  simp only [RadarrClient.searchMovies, clientGet]
  rw [hb]
  dsimp only
  rw [hmap]

/-- `search_series` on a successful backend answer. -/
theorem searchSeries_result_ok (c : SonarrClient) (q : String) (v : Json)
    (l' : List Json) (hb : c.backend (sonarrLookupReq c q) = .ok v)
    (hmap : (coerceSearchResults v).mapM (setImages c.baseUrl) = .ok l') :
    c.searchSeries q = ([sonarrLookupReq c q], .ok l') := by
  simp only [sonarrLookupReq] at hb ⊢
  simp only [SonarrClient.searchSeries, clientGet]
  rw [hb]
  dsimp only
  rw [hmap]

/-- A successful `mapM` over `Except` succeeds pointwise, preserving
positions. -/
theorem mapM_ok_get {α β ε : Type} (f : α → Except ε β) :
    ∀ (l : List α) (l' : List β), l.mapM f = .ok l' →
      l'.length = l.length ∧
      ∀ (i : Nat) (h1 : i < l.length) (h2 : i < l'.length),
        f (l.get ⟨i, h1⟩) = .ok (l'.get ⟨i, h2⟩) := by
  intro l
  induction l with
  | nil =>
    intro l' h
    rw [List.mapM_nil] at h
    have hl : l' = [] := by
      cases h
      rfl
    subst hl
    exact ⟨rfl, fun i h1 _ => by simp at h1⟩
  | cons x xs ih =>
    intro l' h
    rw [List.mapM_cons] at h
    cases hfx : f x with
    | error e =>
      rw [hfx] at h
      cases h
    | ok y =>
      rw [hfx] at h
      cases hxs : xs.mapM f with
      | error e =>
        rw [hxs] at h
        cases h
      | ok ys =>
        rw [hxs] at h
        have hl : l' = y :: ys := by
          cases h
          rfl
        subst hl
        obtain ⟨hlen, hia⟩ := ih ys hxs
        refine ⟨by simp [hlen], ?_⟩
        intro i h1 h2
        cases i with
        | zero => simpa using hfx
        | succ j =>
          simpa using hia j (by simpa using h1) (by simpa using h2)

/-- Every element of a successful `mapM` result comes from a successful
application of `f` to some element of the input. -/
theorem mapM_ok_mem {α β ε : Type} (f : α → Except ε β) :
    ∀ (l : List α) (l' : List β), l.mapM f = .ok l' →
      ∀ y ∈ l', ∃ x ∈ l, f x = .ok y := by
  intro l
  induction l with
  | nil =>
    intro l' h y hy
    rw [List.mapM_nil] at h
    cases h
    cases hy
  | cons x xs ih =>
    intro l' h y hy
    rw [List.mapM_cons] at h
    cases hfx : f x with
    | error e =>
      rw [hfx] at h
      cases h
    | ok z =>
      rw [hfx] at h
      cases hxs : xs.mapM f with
      | error e =>
        rw [hxs] at h
        cases h
      | ok ys =>
        rw [hxs] at h
        have hl : l' = z :: ys := by
          cases h
          rfl
        subst hl
        rcases List.mem_cons.mp hy with rfl | hy'
        · exact ⟨x, List.mem_cons_self _ _, hfx⟩
        · obtain ⟨w, hw, hfw⟩ := ih ys hxs y hy'
          exact ⟨w, List.mem_cons_of_mem _ hw, hfw⟩

/-- Every URL a client builds extends its own base URL. -/
theorem joinUrl_split (b e : String) : ∃ tail, joinUrl b e = b ++ tail :=
  ⟨"/" ++ e.dropWhile (· = '/'), rfl⟩

/-- The trace of `add_movie` is either the lookup GET alone, or the
lookup GET followed by exactly one POST to `/api/v3/movie`. -/
theorem addMovie_trace_shape (c : RadarrClient) (tmdbId qpid : Int) (rfp : String)
    (monitor searchFor : Bool) (tags : Option (List Int)) :
    (c.addMovie tmdbId qpid rfp monitor searchFor tags).1 =
      [radarrLookupReq c ("tmdb:" ++ toString tmdbId)] ∨
    ∃ payload, (c.addMovie tmdbId qpid rfp monitor searchFor tags).1 =
      [radarrLookupReq c ("tmdb:" ++ toString tmdbId),
       ⟨"POST", joinUrl c.baseUrl "/api/v3/movie", [], some payload⟩] := by
  have ht := searchMovies_trace c ("tmdb:" ++ toString tmdbId)
  rcases hq : c.searchMovies ("tmdb:" ++ toString tmdbId) with ⟨t1, r1⟩
  rw [hq] at ht
  dsimp only at ht
  subst ht
  simp only [RadarrClient.addMovie, hq]
  cases r1 with
  | error e => exact Or.inl rfl
  | ok l =>
    cases l with
    | nil => exact Or.inl rfl
    | cons x xs =>
      cases x with
      | obj fs =>
        dsimp only [clientPost]
        rcases hp : c.backend ⟨"POST", joinUrl c.baseUrl "/api/v3/movie", [],
            some (radarrAddPayload tmdbId qpid rfp monitor searchFor tags fs)⟩ with e | res <;>
          exact Or.inr ⟨radarrAddPayload tmdbId qpid rfp monitor searchFor tags fs, rfl⟩
      | null => exact Or.inl rfl
      | bool b => exact Or.inl rfl
      | num n => exact Or.inl rfl
      | str s => exact Or.inl rfl
      | arr l => exact Or.inl rfl

/-- The trace of `add_series` is either the lookup GET alone, or the
lookup GET followed by exactly one POST to `/api/v3/series`. -/
theorem addSeries_trace_shape (c : SonarrClient) (tvdbId qpid : Int) (rfp : String)
    (monitor : String) (searchForMissing seasonFolder : Bool)
    (tags : Option (List Int)) :
    (c.addSeries tvdbId qpid rfp monitor searchForMissing seasonFolder tags).1 =
      [sonarrLookupReq c ("tvdb:" ++ toString tvdbId)] ∨
    ∃ payload, (c.addSeries tvdbId qpid rfp monitor searchForMissing seasonFolder tags).1 =
      [sonarrLookupReq c ("tvdb:" ++ toString tvdbId),
       ⟨"POST", joinUrl c.baseUrl "/api/v3/series", [], some payload⟩] := by
  have ht := searchSeries_trace c ("tvdb:" ++ toString tvdbId)
  rcases hq : c.searchSeries ("tvdb:" ++ toString tvdbId) with ⟨t1, r1⟩
  rw [hq] at ht
  dsimp only at ht
  subst ht
  simp only [SonarrClient.addSeries, hq]
  cases r1 with
  | error e => exact Or.inl rfl
  | ok l =>
    cases l with
    | nil => exact Or.inl rfl
    | cons x xs =>
      cases x with
      | obj fs =>
        dsimp only [clientPost]
        rcases hp : c.backend ⟨"POST", joinUrl c.baseUrl "/api/v3/series", [],
            some (sonarrAddPayload tvdbId qpid rfp monitor searchForMissing seasonFolder tags fs)⟩
          with e | res <;>
          exact Or.inr
            ⟨sonarrAddPayload tvdbId qpid rfp monitor searchForMissing seasonFolder tags fs, rfl⟩
      | null => exact Or.inl rfl
      | bool b => exact Or.inl rfl
      | num n => exact Or.inl rfl
      | str s => exact Or.inl rfl
      | arr l => exact Or.inl rfl

/-- C5: when the lookup step of an add operation returns the empty result
list, the operation raises the caller-facing `ValueError` ("... not
found") with the lookup GET as its entire trace — the creation POST is
never issued — and, for every add invocation, every request of the trace
(lookup and POST alike) extends the one resolved client's base URL. -/
theorem add_empty_lookup_no_post (c : RadarrClient) (cs : SonarrClient)
    (tmdbId tvdbId qpid qpid' : Int) (rfp rfp' : String)
    (monitor searchFor : Bool) (monitorStr : String)
    (searchForMissing seasonFolder : Bool) (tags tags' : Option (List Int)) :
    ((c.searchMovies ("tmdb:" ++ toString tmdbId)).2 = .ok [] →
      c.addMovie tmdbId qpid rfp monitor searchFor tags =
        ([radarrLookupReq c ("tmdb:" ++ toString tmdbId)],
         .error (.valueError ("Movie with TMDB ID " ++ toString tmdbId ++ " not found"))) ∧
      ∀ r ∈ (c.addMovie tmdbId qpid rfp monitor searchFor tags).1, r.method = "GET") ∧
    (∀ r ∈ (c.addMovie tmdbId qpid rfp monitor searchFor tags).1,
      ∃ tail, r.url = c.baseUrl ++ tail) ∧
    ((cs.searchSeries ("tvdb:" ++ toString tvdbId)).2 = .ok [] →
      cs.addSeries tvdbId qpid' rfp' monitorStr searchForMissing seasonFolder tags' =
        ([sonarrLookupReq cs ("tvdb:" ++ toString tvdbId)],
         .error (.valueError ("Series with TVDB ID " ++ toString tvdbId ++ " not found"))) ∧
      ∀ r ∈ (cs.addSeries tvdbId qpid' rfp' monitorStr searchForMissing seasonFolder tags').1,
        r.method = "GET") ∧
    (∀ r ∈ (cs.addSeries tvdbId qpid' rfp' monitorStr searchForMissing seasonFolder tags').1,
      ∃ tail, r.url = cs.baseUrl ++ tail) := by
  refine ⟨?_, ?_, ?_, ?_⟩
  · intro h
    have ht := searchMovies_trace c ("tmdb:" ++ toString tmdbId)
    rcases hq : c.searchMovies ("tmdb:" ++ toString tmdbId) with ⟨t1, r1⟩
    rw [hq] at ht h
    dsimp only at ht h
    subst ht
    subst h
    have heq : c.addMovie tmdbId qpid rfp monitor searchFor tags =
        ([radarrLookupReq c ("tmdb:" ++ toString tmdbId)],
         .error (.valueError ("Movie with TMDB ID " ++ toString tmdbId ++ " not found"))) := by
      simp only [RadarrClient.addMovie, hq]
    refine ⟨heq, ?_⟩
    rw [heq]
    intro r hr
    have hr' := List.mem_singleton.mp hr
    subst hr'
    rfl
  · intro r hr
    rcases addMovie_trace_shape c tmdbId qpid rfp monitor searchFor tags with hsh | ⟨p, hsh⟩
    · rw [hsh] at hr
      have hr' := List.mem_singleton.mp hr
      subst hr'
      exact joinUrl_split c.baseUrl "/api/v3/movie/lookup"
    · rw [hsh] at hr
      rcases List.mem_cons.mp hr with rfl | hr'
      · exact joinUrl_split c.baseUrl "/api/v3/movie/lookup"
      · have hr'' := List.mem_singleton.mp hr'
        subst hr''
        exact joinUrl_split c.baseUrl "/api/v3/movie"
  · intro h
    have ht := searchSeries_trace cs ("tvdb:" ++ toString tvdbId)
    rcases hq : cs.searchSeries ("tvdb:" ++ toString tvdbId) with ⟨t1, r1⟩
    rw [hq] at ht h
    dsimp only at ht h
    subst ht
    subst h
    have heq : cs.addSeries tvdbId qpid' rfp' monitorStr searchForMissing seasonFolder tags' =
        ([sonarrLookupReq cs ("tvdb:" ++ toString tvdbId)],
         .error (.valueError ("Series with TVDB ID " ++ toString tvdbId ++ " not found"))) := by
      simp only [SonarrClient.addSeries, hq]
    refine ⟨heq, ?_⟩
    rw [heq]
    intro r hr
    have hr' := List.mem_singleton.mp hr
    subst hr'
    rfl
  · intro r hr
    rcases addSeries_trace_shape cs tvdbId qpid' rfp' monitorStr searchForMissing
        seasonFolder tags' with hsh | ⟨p, hsh⟩
    · rw [hsh] at hr
      have hr' := List.mem_singleton.mp hr
      subst hr'
      exact joinUrl_split cs.baseUrl "/api/v3/series/lookup"
    · rw [hsh] at hr
      rcases List.mem_cons.mp hr with rfl | hr'
      · exact joinUrl_split cs.baseUrl "/api/v3/series/lookup"
      · have hr'' := List.mem_singleton.mp hr'
        subst hr''
        exact joinUrl_split cs.baseUrl "/api/v3/series"

/-- Witness for C5: against a backend whose lookup answer is the empty
array, `add_movie` issues only the lookup GET and fails with the
not-found `ValueError`. -/
theorem add_empty_lookup_no_post_witness :
    (RadarrClient.mk "http://r" (fun _ => .ok (.arr []))).addMovie 7 1 "/movies" true true none =
      ([radarrLookupReq (RadarrClient.mk "http://r" (fun _ => .ok (.arr []))) "tmdb:7"],
       .error (.valueError "Movie with TMDB ID 7 not found")) := by
  have h := (add_empty_lookup_no_post (RadarrClient.mk "http://r" (fun _ => .ok (.arr [])))
    (SonarrClient.mk "http://s" (fun _ => .ok (.arr []))) 7 9 1 1 "/movies" "/series"
    true true "all" true true none none).1 (by rfl)
  exact h.1

/-- The image loop body on a dict whose `url` slot (with default `""`)
holds the string `u`: the output pairs the `coverType` (default
`"unknown"`) with the absolutized url. -/
theorem transformOneImage_value (base : String) (gs : List (String × Json)) (u : String)
    (hu : (jget "url" gs).getD (.str "") = .str u) :
    transformOneImage base (.obj gs) =
      .ok (.obj [("type", (jget "coverType" gs).getD (.str "unknown")),
                 ("url", .str (if startsWithSlash u then base ++ u else u))]) := by
  simp only [transformOneImage, hu]

/-- If every element maps successfully, `mapM` succeeds. -/
theorem mapM_ok_of_forall {α β ε : Type} (f : α → Except ε β) :
    ∀ (l : List α), (∀ x ∈ l, ∃ y, f x = .ok y) → ∃ l', l.mapM f = .ok l' := by
  intro l
  induction l with
  | nil =>
    intro _
    exact ⟨[], by rw [List.mapM_nil]; rfl⟩
  | cons x xs ih =>
    intro h
    obtain ⟨y, hy⟩ := h x (List.mem_cons_self _ _)
    obtain ⟨ys, hys⟩ := ih (fun z hz => h z (List.mem_cons_of_mem _ hz))
    exact ⟨y :: ys, by rw [List.mapM_cons, hy, hys]; rfl⟩

/-- C6: the image rewrite maps `{"coverType": t, "url": u}` to
`{"type": t, "url": base ++ u}` when `u` starts with `/` and passes an
already-absolute url through unchanged; the per-element statement
`movie["images"] = _transform_images(movie)` stores the rewritten list
under the `images` key; and the rewrite is applied to every element of
the search and list results of both clients, and to an add response
containing an `images` field. -/
theorem image_rewrite_applied_everywhere :
    (∀ (base t u : String), startsWithSlash u = true →
      transformOneImage base (.obj [("coverType", .str t), ("url", .str u)]) =
        .ok (.obj [("type", .str t), ("url", .str (base ++ u))])) ∧
    (∀ (base t u : String), startsWithSlash u = false →
      transformOneImage base (.obj [("coverType", .str t), ("url", .str u)]) =
        .ok (.obj [("type", .str t), ("url", .str u)])) ∧
    (∀ (base : String) (fs : List (String × Json)) (v : Json),
      transformImages base (.obj fs) = .ok v →
      setImages base (.obj fs) = .ok (.obj (objSet fs "images" v))) ∧
    (∀ (c : RadarrClient) (q : String) (l l' : List Json),
      c.backend (radarrLookupReq c q) = .ok (.arr l) →
      l.mapM (setImages c.baseUrl) = .ok l' →
      c.searchMovies q = ([radarrLookupReq c q], .ok l') ∧
      l'.length = l.length ∧
      ∀ (i : Nat) (h1 : i < l.length) (h2 : i < l'.length),
        setImages c.baseUrl (l.get ⟨i, h1⟩) = .ok (l'.get ⟨i, h2⟩)) ∧
    (∀ (c : RadarrClient) (l l' : List Json),
      c.backend ⟨"GET", joinUrl c.baseUrl "/api/v3/movie", [], none⟩ = .ok (.arr l) →
      l.mapM (setImages c.baseUrl) = .ok l' →
      (c.listMovies).2 = .ok l' ∧
      l'.length = l.length ∧
      ∀ (i : Nat) (h1 : i < l.length) (h2 : i < l'.length),
        setImages c.baseUrl (l.get ⟨i, h1⟩) = .ok (l'.get ⟨i, h2⟩)) ∧
    (∀ (c : SonarrClient) (q : String) (l l' : List Json),
      c.backend (sonarrLookupReq c q) = .ok (.arr l) →
      l.mapM (setImages c.baseUrl) = .ok l' →
      c.searchSeries q = ([sonarrLookupReq c q], .ok l')) ∧
    (∀ (c : SonarrClient) (l l' : List Json),
      c.backend ⟨"GET", joinUrl c.baseUrl "/api/v3/series", [], none⟩ = .ok (.arr l) →
      l.mapM (setImages c.baseUrl) = .ok l' →
      (c.listSeries).2 = .ok l') ∧
    (∀ (base : String) (fs : List (String × Json)),
      (jget "images" fs).isSome = true → (Json.obj fs).truthy = true →
      transformAddResult base (.obj fs) = setImages base (.obj fs)) := by
  refine ⟨?_, ?_, ?_, ?_, ?_, ?_, ?_, ?_⟩
  · intro base t u h
    simp [transformOneImage, jget, h]
  · intro base t u h
    simp [transformOneImage, jget, h]
  · intro base fs v h
    simp only [setImages, h]
  · intro c q l l' hb hmap
    refine ⟨searchMovies_result_ok c q (.arr l) l' hb hmap, (mapM_ok_get _ l l' hmap).1,
      (mapM_ok_get _ l l' hmap).2⟩
  · intro c l l' hb hmap
    refine ⟨?_, (mapM_ok_get _ l l' hmap).1, (mapM_ok_get _ l l' hmap).2⟩
    simp only [RadarrClient.listMovies, clientGet]
    rw [hb]
    dsimp only
    rw [hmap]
  · intro c q l l' hb hmap
    exact searchSeries_result_ok c q (.arr l) l' hb hmap
  · intro c l l' hb hmap
    simp only [SonarrClient.listSeries, clientGet]
    rw [hb]
    dsimp only
    rw [hmap]
  · intro base fs himg htr
    simp only [transformAddResult, htr, if_true, containsImagesKey, himg]

/-- Witness for C6: the spec's own example — a relative poster url is
absolutized against `https://host:7878`, an absolute one passes
through. -/
theorem image_rewrite_applied_everywhere_witness :
    transformOneImage "https://host:7878"
        (.obj [("coverType", .str "poster"), ("url", .str "/path.jpg")]) =
      .ok (.obj [("type", .str "poster"), ("url", .str "https://host:7878/path.jpg")]) ∧
    transformOneImage "https://host:7878"
        (.obj [("coverType", .str "poster"), ("url", .str "http://cdn/x.jpg")]) =
      .ok (.obj [("type", .str "poster"), ("url", .str "http://cdn/x.jpg")]) := by
  constructor
  · have h := image_rewrite_applied_everywhere.1 "https://host:7878" "poster" "/path.jpg" rfl
    rw [h]
    rfl
  · exact image_rewrite_applied_everywhere.2.1 "https://host:7878" "poster"
      "http://cdn/x.jpg" rfl

/-- C7: the search coercion — a null backend answer yields the empty
array, a non-empty single JSON object is wrapped into a one-element
array (image-rewritten), an array is returned element-wise
image-rewritten, and an empty object (falsy) also yields the empty
array; for both clients. -/
theorem search_result_coercion (c : RadarrClient) (cs : SonarrClient) (q q' : String) :
    (c.backend (radarrLookupReq c q) = .ok .null →
      c.searchMovies q = ([radarrLookupReq c q], .ok [])) ∧
    (∀ (fs : List (String × Json)) (m' : Json),
      c.backend (radarrLookupReq c q) = .ok (.obj fs) → fs ≠ [] →
      setImages c.baseUrl (.obj fs) = .ok m' →
      c.searchMovies q = ([radarrLookupReq c q], .ok [m'])) ∧
    (∀ (l l' : List Json), c.backend (radarrLookupReq c q) = .ok (.arr l) →
      l.mapM (setImages c.baseUrl) = .ok l' →
      c.searchMovies q = ([radarrLookupReq c q], .ok l')) ∧
    (c.backend (radarrLookupReq c q) = .ok (.obj []) →
      c.searchMovies q = ([radarrLookupReq c q], .ok [])) ∧
    (cs.backend (sonarrLookupReq cs q') = .ok .null →
      cs.searchSeries q' = ([sonarrLookupReq cs q'], .ok [])) ∧
    (∀ (fs : List (String × Json)) (m' : Json),
      cs.backend (sonarrLookupReq cs q') = .ok (.obj fs) → fs ≠ [] →
      setImages cs.baseUrl (.obj fs) = .ok m' →
      cs.searchSeries q' = ([sonarrLookupReq cs q'], .ok [m'])) ∧
    (∀ (l l' : List Json), cs.backend (sonarrLookupReq cs q') = .ok (.arr l) →
      l.mapM (setImages cs.baseUrl) = .ok l' →
      cs.searchSeries q' = ([sonarrLookupReq cs q'], .ok l')) := by
  refine ⟨?_, ?_, ?_, ?_, ?_, ?_, ?_⟩
  · intro hb
    exact searchMovies_result_ok c q .null [] hb rfl
  · intro fs m' hb hne hset
    rcases fs with _ | ⟨p, fs'⟩
    · exact absurd rfl hne
    · refine searchMovies_result_ok c q (.obj (p :: fs')) [m'] hb ?_
      show [Json.obj (p :: fs')].mapM (setImages c.baseUrl) = .ok [m']
      rw [List.mapM_cons, hset, List.mapM_nil]
      rfl
  · intro l l' hb hmap
    exact searchMovies_result_ok c q (.arr l) l' hb hmap
  · intro hb
    exact searchMovies_result_ok c q (.obj []) [] hb rfl
  · intro hb
    exact searchSeries_result_ok cs q' .null [] hb rfl
  · intro fs m' hb hne hset
    rcases fs with _ | ⟨p, fs'⟩
    · exact absurd rfl hne
    · refine searchSeries_result_ok cs q' (.obj (p :: fs')) [m'] hb ?_
      show [Json.obj (p :: fs')].mapM (setImages cs.baseUrl) = .ok [m']
      rw [List.mapM_cons, hset, List.mapM_nil]
      rfl
  · intro l l' hb hmap
    exact searchSeries_result_ok cs q' (.arr l) l' hb hmap

/-- Witness for C7: a null backend answer gives the empty result list; a
single-object answer gives a one-element list with an (empty) rewritten
`images` key added. -/
theorem search_result_coercion_witness :
    (RadarrClient.mk "http://r" (fun _ => .ok .null)).searchMovies "q" =
      ([radarrLookupReq (RadarrClient.mk "http://r" (fun _ => .ok .null)) "q"], .ok []) ∧
    (RadarrClient.mk "http://r" (fun _ => .ok (.obj [("title", .str "Y")]))).searchMovies "q" =
      ([radarrLookupReq (RadarrClient.mk "http://r"
          (fun _ => .ok (.obj [("title", .str "Y")]))) "q"],
       .ok [.obj [("title", .str "Y"), ("images", .arr [])]]) := by
  constructor
  · exact (search_result_coercion (RadarrClient.mk "http://r" (fun _ => .ok .null))
      (SonarrClient.mk "http://s" (fun _ => .ok .null)) "q" "q").1 rfl
  · exact (search_result_coercion
      (RadarrClient.mk "http://r" (fun _ => .ok (.obj [("title", .str "Y")])))
      (SonarrClient.mk "http://s" (fun _ => .ok .null)) "q" "q").2.1
      [("title", .str "Y")] (.obj [("title", .str "Y"), ("images", .arr [])])
      rfl (by simp) rfl

/-- A successful image-loop output is always a two-key
`{"type": _, "url": _}` object with a string url. -/
theorem transformOneImage_ok_shape (base : String) (img j : Json)
    (h : transformOneImage base img = .ok j) :
    ∃ t u, j = .obj [("type", t), ("url", .str u)] := by
  cases img with
  | obj gs =>
    simp only [transformOneImage] at h
    rcases hv : (jget "url" gs).getD (.str "") with _ | b | n | u | l | o <;> rw [hv] at h
    case str =>
      cases h
      exact ⟨_, _, rfl⟩
    all_goals cases h
  | null => cases h
  | bool b => cases h
  | num n => cases h
  | str s => cases h
  | arr l => cases h

/-- C9: on an item whose `images` field is a list of image dicts with
string (or absent) urls, the transformation succeeds and returns one
entry per input image; every output entry is exactly
`{"type": _, "url": _}`; position `i` of the output is built from
position `i` of the input with `coverType` defaulting to `"unknown"`,
`url` defaulting to `""`, and every other input field discarded. -/
theorem transform_images_shape (base : String) (fs : List (String × Json))
    (imgs : List Json) (h : jget "images" fs = some (.arr imgs))
    (hshape : ∀ img ∈ imgs, ∃ gs u, img = Json.obj gs ∧
      (jget "url" gs).getD (.str "") = .str u) :
    ∃ l, transformImages base (.obj fs) = .ok (.arr l) ∧
      l.length = imgs.length ∧
      (∀ j ∈ l, ∃ t u, j = .obj [("type", t), ("url", .str u)]) ∧
      (∀ (i : Nat) (h1 : i < imgs.length) (h2 : i < l.length)
        (gs : List (String × Json)) (u : String),
        imgs.get ⟨i, h1⟩ = .obj gs →
        (jget "url" gs).getD (.str "") = .str u →
        l.get ⟨i, h2⟩ = .obj [("type", (jget "coverType" gs).getD (.str "unknown")),
                              ("url", .str (if startsWithSlash u then base ++ u else u))]) := by
  obtain ⟨l, hl⟩ := mapM_ok_of_forall (transformOneImage base) imgs (by
    intro img hmem
    obtain ⟨gs, u, rfl, hu⟩ := hshape img hmem
    exact ⟨_, transformOneImage_value base gs u hu⟩)
  refine ⟨l, ?_, (mapM_ok_get _ imgs l hl).1, ?_, ?_⟩
  · simp only [transformImages, h]
    dsimp only [Option.getD]
    rw [hl]
  · intro j hj
    obtain ⟨img, _, himg⟩ := mapM_ok_mem _ imgs l hl j hj
    exact transformOneImage_ok_shape base img j himg
  · intro i h1 h2 gs u hgs hu
    have hval := (mapM_ok_get _ imgs l hl).2 i h1 h2
    rw [hgs, transformOneImage_value base gs u hu] at hval
    exact (Except.ok.inj hval).symm

/-- Witness for C9: a two-image payload — one dict with an extra field
and a relative url, one empty dict — transforms to exactly two two-key
entries with the defaults applied. -/
theorem transform_images_shape_witness :
    (∃ l, transformImages "http://h"
        (.obj [("title", .str "x"),
               ("images", .arr [.obj [("coverType", .str "poster"),
                                      ("url", .str "/p.jpg"),
                                      ("extra", .num 1)],
                                .obj []])]) = .ok (.arr l) ∧ l.length = 2) ∧
    transformImages "http://h"
        (.obj [("title", .str "x"),
               ("images", .arr [.obj [("coverType", .str "poster"),
                                      ("url", .str "/p.jpg"),
                                      ("extra", .num 1)],
                                .obj []])]) =
      .ok (.arr [.obj [("type", .str "poster"), ("url", .str "http://h/p.jpg")],
                 .obj [("type", .str "unknown"), ("url", .str "")]]) := by
  have h := transform_images_shape "http://h"
    [("title", .str "x"),
     ("images", .arr [.obj [("coverType", .str "poster"), ("url", .str "/p.jpg"),
                            ("extra", .num 1)],
                      .obj []])]
    [.obj [("coverType", .str "poster"), ("url", .str "/p.jpg"), ("extra", .num 1)],
     .obj []]
    rfl
    (by
      intro img hmem
      rcases List.mem_cons.mp hmem with rfl | hmem
      · exact ⟨_, "/p.jpg", rfl, rfl⟩
      · have h2 := List.mem_singleton.mp hmem
        subst h2
        exact ⟨[], "", rfl, rfl⟩)
  obtain ⟨l, h1, h2, _⟩ := h
  exact ⟨⟨l, h1, by rw [h2]; rfl⟩, rfl⟩

/-- C10: when the lookup step returns a non-empty list whose head is the
dict `fs`, the creation POST is issued with the payload built from `fs`
alone — `title`, `titleSlug`, `images` and `year`/`seasons` are read
from the first element, whatever the rest of the lookup results (`rest`
is universally quantified and absent from the payload). -/
theorem add_payload_from_first_result (c : RadarrClient) (cs : SonarrClient)
    (tmdbId tvdbId qpid qpid' : Int) (rfp rfp' : String)
    (monitor searchFor : Bool) (monitorStr : String)
    (searchForMissing seasonFolder : Bool) (tags tags' : Option (List Int))
    (fs gs : List (String × Json)) (rest rest' : List Json) :
    ((c.searchMovies ("tmdb:" ++ toString tmdbId)).2 = .ok (.obj fs :: rest) →
      ∃ r2, c.addMovie tmdbId qpid rfp monitor searchFor tags =
        ([radarrLookupReq c ("tmdb:" ++ toString tmdbId),
          ⟨"POST", joinUrl c.baseUrl "/api/v3/movie", [],
           some (radarrAddPayload tmdbId qpid rfp monitor searchFor tags fs)⟩], r2)) ∧
    ((cs.searchSeries ("tvdb:" ++ toString tvdbId)).2 = .ok (.obj gs :: rest') →
      ∃ r2, cs.addSeries tvdbId qpid' rfp' monitorStr searchForMissing seasonFolder tags' =
        ([sonarrLookupReq cs ("tvdb:" ++ toString tvdbId),
          ⟨"POST", joinUrl cs.baseUrl "/api/v3/series", [],
           some (sonarrAddPayload tvdbId qpid' rfp' monitorStr searchForMissing
             seasonFolder tags' gs)⟩], r2)) := by
  constructor
  · intro h
    have ht := searchMovies_trace c ("tmdb:" ++ toString tmdbId)
    rcases hq : c.searchMovies ("tmdb:" ++ toString tmdbId) with ⟨t1, r1⟩
    rw [hq] at ht h
    dsimp only at ht h
    subst ht
    subst h
    simp only [RadarrClient.addMovie, hq]
    dsimp only [clientPost]
    rcases hp : c.backend ⟨"POST", joinUrl c.baseUrl "/api/v3/movie", [],
        some (radarrAddPayload tmdbId qpid rfp monitor searchFor tags fs)⟩ with e | res <;>
      exact ⟨_, rfl⟩
  · intro h
    have ht := searchSeries_trace cs ("tvdb:" ++ toString tvdbId)
    rcases hq : cs.searchSeries ("tvdb:" ++ toString tvdbId) with ⟨t1, r1⟩
    rw [hq] at ht h
    dsimp only at ht h
    subst ht
    subst h
    simp only [SonarrClient.addSeries, hq]
    dsimp only [clientPost]
    rcases hp : cs.backend ⟨"POST", joinUrl cs.baseUrl "/api/v3/series", [],
        some (sonarrAddPayload tvdbId qpid' rfp' monitorStr searchForMissing
          seasonFolder tags' gs)⟩ with e | res <;>
      exact ⟨_, rfl⟩

/-- A demo backend for the C10 witness: the lookup GET answers with two
movies, the POST with an empty body. -/
def radarrDemoBackend : Backend := fun r =>
  if r.method == "POST" then Except.ok Json.null
  else Except.ok (.arr [.obj [("title", .str "A"), ("titleSlug", .str "a"),
                              ("year", .num 2001)],
                        .obj [("title", .str "B")]])

/-- Witness for C10: with a two-result lookup, the POST body is built
from the first result only ("A", slug "a", year 2001), never from the
second. -/
theorem add_payload_from_first_result_witness :
    ∃ r2, (RadarrClient.mk "http://r" radarrDemoBackend).addMovie 7 1 "/m" true true none =
      ([radarrLookupReq (RadarrClient.mk "http://r" radarrDemoBackend) "tmdb:7",
        ⟨"POST", joinUrl "http://r" "/api/v3/movie", [],
         some (.obj [("tmdbId", .num 7), ("title", .str "A"),
                     ("qualityProfileId", .num 1), ("titleSlug", .str "a"),
                     ("images", .arr []), ("year", .num 2001),
                     ("rootFolderPath", .str "/m"), ("monitored", .bool true),
                     ("addOptions", .obj [("searchForMovie", .bool true)])])⟩], r2) := by
  obtain ⟨r2, hr⟩ := (add_payload_from_first_result
    (RadarrClient.mk "http://r" radarrDemoBackend)
    (SonarrClient.mk "http://s" (fun _ => .ok .null))
    7 9 1 1 "/m" "/s" true true "all" true true none none
    [("title", .str "A"), ("titleSlug", .str "a"), ("year", .num 2001), ("images", .arr [])]
    [] [.obj [("title", .str "B"), ("images", .arr [])]] []).1 rfl
  refine ⟨r2, hr.trans ?_⟩
  rfl

/-! ## Adapter boundary: claim C8 -/

/-- C8: every adapter operation returns a plain string.  The search tools
render any raised `ArrClientError` as `"Error: ..."` and any other raised
exception as `"Unexpected error: ..."`; the add tools additionally catch
`ValueError` — in particular the not-found-during-add error — first,
rendering it `"Validation error: ..."`.  No raised error of any kind
escapes the boundary: the result is always either the serialized success
value or one of these prefixed strings. -/
theorem adapter_catches_all_errors :
    (∀ (clients : List (Nat × RadarrClient)) (q : String) (iid : Option Nat),
      (∃ s, RadarrTools.searchMoviesCore clients q iid = .ok s ∧
        RadarrTools.searchMovies clients q iid = s) ∨
      (∃ e, RadarrTools.searchMoviesCore clients q iid = .error e ∧
        ((e.isArrClientError = true ∧
          RadarrTools.searchMovies clients q iid = "Error: " ++ e.msgStr) ∨
         (e.isArrClientError = false ∧
          RadarrTools.searchMovies clients q iid = "Unexpected error: " ++ e.msgStr)))) ∧
    (∀ (clients : List (Nat × SonarrClient)) (q : String) (iid : Option Nat),
      (∃ s, SonarrTools.searchSeriesCore clients q iid = .ok s ∧
        SonarrTools.searchSeries clients q iid = s) ∨
      (∃ e, SonarrTools.searchSeriesCore clients q iid = .error e ∧
        ((e.isArrClientError = true ∧
          SonarrTools.searchSeries clients q iid = "Error: " ++ e.msgStr) ∨
         (e.isArrClientError = false ∧
          SonarrTools.searchSeries clients q iid = "Unexpected error: " ++ e.msgStr)))) ∧
    (∀ (clients : List (Nat × RadarrClient)) (tmdbId qpid : Int) (rfp : String)
      (iid : Option Nat) (monitor searchFor : Bool),
      (∃ s, RadarrTools.addMovieCore clients tmdbId qpid rfp iid monitor searchFor = .ok s ∧
        RadarrTools.addMovie clients tmdbId qpid rfp iid monitor searchFor = s) ∨
      (∃ e, RadarrTools.addMovieCore clients tmdbId qpid rfp iid monitor searchFor = .error e ∧
        ((∃ m, e = .valueError m ∧
          RadarrTools.addMovie clients tmdbId qpid rfp iid monitor searchFor =
            "Validation error: " ++ m) ∨
         (e.isArrClientError = true ∧
          RadarrTools.addMovie clients tmdbId qpid rfp iid monitor searchFor =
            "Error: " ++ e.msgStr) ∨
         ((∀ m, e ≠ .valueError m) ∧ e.isArrClientError = false ∧
          RadarrTools.addMovie clients tmdbId qpid rfp iid monitor searchFor =
            "Unexpected error: " ++ e.msgStr)))) ∧
    (∀ (clients : List (Nat × RadarrClient)) (tmdbId qpid : Int) (rfp : String)
      (iid : Option Nat) (monitor searchFor : Bool) (m : String),
      RadarrTools.addMovieCore clients tmdbId qpid rfp iid monitor searchFor =
        .error (.valueError m) →
      RadarrTools.addMovie clients tmdbId qpid rfp iid monitor searchFor =
        "Validation error: " ++ m) := by
  refine ⟨?_, ?_, ?_, ?_⟩
  · intro clients q iid
    rcases hc : RadarrTools.searchMoviesCore clients q iid with e | s
    · refine Or.inr ⟨e, rfl, ?_⟩
      cases e <;>
        simp [RadarrTools.searchMovies, hc, renderToolError, PyErr.isArrClientError,
          PyErr.msgStr]
    · exact Or.inl ⟨s, rfl, by simp [RadarrTools.searchMovies, hc]⟩
  · intro clients q iid
    rcases hc : SonarrTools.searchSeriesCore clients q iid with e | s
    · refine Or.inr ⟨e, rfl, ?_⟩
      cases e <;>
        simp [SonarrTools.searchSeries, hc, renderToolError, PyErr.isArrClientError,
          PyErr.msgStr]
    · exact Or.inl ⟨s, rfl, by simp [SonarrTools.searchSeries, hc]⟩
  · intro clients tmdbId qpid rfp iid monitor searchFor
    rcases hc : RadarrTools.addMovieCore clients tmdbId qpid rfp iid monitor searchFor
      with e | s
    · refine Or.inr ⟨e, rfl, ?_⟩
      cases e with
      | valueError m =>
        exact Or.inl ⟨m, rfl, by
          simp [RadarrTools.addMovie, hc, renderAddToolError]⟩
      | arrNetwork m =>
        refine Or.inr (Or.inl ⟨rfl, ?_⟩)
        simp [RadarrTools.addMovie, hc, renderAddToolError, renderToolError,
          PyErr.isArrClientError, PyErr.msgStr]
      | arrAPI m sc =>
        refine Or.inr (Or.inl ⟨rfl, ?_⟩)
        simp [RadarrTools.addMovie, hc, renderAddToolError, renderToolError,
          PyErr.isArrClientError]
      | typeError m =>
        refine Or.inr (Or.inr ⟨fun m' h => PyErr.noConfusion h, rfl, ?_⟩)
        simp [RadarrTools.addMovie, hc, renderAddToolError, renderToolError,
          PyErr.isArrClientError, PyErr.msgStr]
    · exact Or.inl ⟨s, rfl, by simp [RadarrTools.addMovie, hc]⟩
  · intro clients tmdbId qpid rfp iid monitor searchFor m hc
    simp [RadarrTools.addMovie, hc, renderAddToolError]

/-- Witness for C8: a registry whose only client's lookup answers with
the empty list — `add_movie` ends in the caller-facing "Validation
error" string, no exception escaping the tool. -/
theorem adapter_catches_all_errors_witness :
    RadarrTools.addMovie [(1, RadarrClient.mk "http://r" (fun _ => .ok (.arr [])))]
      7 1 "/m" none true true = "Validation error: Movie with TMDB ID 7 not found" := by
  exact adapter_catches_all_errors.2.2.2
    [(1, RadarrClient.mk "http://r" (fun _ => .ok (.arr [])))]
    7 1 "/m" none true true "Movie with TMDB ID 7 not found" rfl

/-! ## Spec-modelled operations: claim C1 -/

/-- C1 (spec-modelled — the client methods `get_queue`, `get_calendar`
and `get_system_status` are absent from `src/`, only their tool-layer
callers appear, so they are modelled from the spec): each operation
performs exactly one GET with the stated parameters, and an omitted
calendar window defaults to `[today, today + 7]` for the series client
and `[today, today + 30]` for the movie client, while supplied dates are
passed through. -/
theorem calendar_queue_status_single_get :
    (∀ (c : RadarrClient) (page pageSize : Int),
      (c.getQueue page pageSize).1 =
        [⟨"GET", joinUrl c.baseUrl "/api/v3/queue",
          [("page", toString page), ("pageSize", toString pageSize)], none⟩]) ∧
    (∀ (c : SonarrClient) (page pageSize : Int),
      (c.getQueue page pageSize).1 =
        [⟨"GET", joinUrl c.baseUrl "/api/v3/queue",
          [("page", toString page), ("pageSize", toString pageSize)], none⟩]) ∧
    (∀ (c : RadarrClient) (today : Nat),
      (c.getCalendar today none none).1 =
        [⟨"GET", joinUrl c.baseUrl "/api/v3/calendar",
          [("start", toString today), ("end", toString (today + 30))], none⟩]) ∧
    (∀ (c : SonarrClient) (today : Nat),
      (c.getCalendar today none none).1 =
        [⟨"GET", joinUrl c.baseUrl "/api/v3/calendar",
          [("start", toString today), ("end", toString (today + 7))], none⟩]) ∧
    (∀ (c : RadarrClient) (today s e : Nat),
      (c.getCalendar today (some s) (some e)).1 =
        [⟨"GET", joinUrl c.baseUrl "/api/v3/calendar",
          [("start", toString s), ("end", toString e)], none⟩]) ∧
    (∀ (c : SonarrClient) (today s e : Nat),
      (c.getCalendar today (some s) (some e)).1 =
        [⟨"GET", joinUrl c.baseUrl "/api/v3/calendar",
          [("start", toString s), ("end", toString e)], none⟩]) ∧
    (∀ (c : RadarrClient),
      c.getSystemStatus.1 =
        [⟨"GET", joinUrl c.baseUrl "/api/v3/system/status", [], none⟩]) ∧
    (∀ (c : SonarrClient),
      c.getSystemStatus.1 =
        [⟨"GET", joinUrl c.baseUrl "/api/v3/system/status", [], none⟩]) :=
  ⟨fun _ _ _ => rfl, fun _ _ _ => rfl, fun _ _ => rfl, fun _ _ => rfl,
   fun _ _ _ _ => rfl, fun _ _ _ _ => rfl, fun _ => rfl, fun _ => rfl⟩
